import Mathlib

/-!
Verification of the credential-vault and exchange-routing layer of the
binance-mcp repository, shallowly embedded in Lean 4.

The embedding follows the Python source:
* `src/binance_mcp/config.py`  — `ConfigManager` (account registry, persistence)
* `src/binance_mcp/broker.py`  — `BinanceExchangeFactory` (client construction,
  partner/broker-code injection and its best-effort verification)
* `src/binance_mcp/tools.py`   — `BinanceMCPTools` (balance queries, order
  placement, multi-step fund transfers, the per-account client cache)

Python dicts are modelled as association lists with insert-or-replace
semantics, floats as rationals, in-place mutation of shared objects as
explicit state passing (a cache mapping account ids to client records),
raised exceptions as `Except`, and remote/file-system side effects as
explicit event traces returned alongside the result.
-/

namespace BinanceMcp

/-- Association-list lookup, modelling Python dict indexing / `in` tests. -/
def alookup {κ ν : Type} [DecidableEq κ] (k : κ) : List (κ × ν) → Option ν
  | [] => none
  | (k1, v) :: rest => if k1 = k then some v else alookup k rest

/-- Replace the value stored under key `k` (leaves the list unchanged when the
key is absent), modelling in-place mutation of an existing dict entry. -/
def areplace {κ ν : Type} [DecidableEq κ] (k : κ) (v : ν) :
    List (κ × ν) → List (κ × ν)
  | [] => []
  | (k1, v1) :: rest =>
    if k1 = k then (k, v) :: areplace k v rest else (k1, v1) :: areplace k v rest

/-- Python dict assignment `d[k] = v`: replace if present, else append
(dicts preserve insertion order). -/
def ainsert {κ ν : Type} [DecidableEq κ] (k : κ) (v : ν) (l : List (κ × ν)) :
    List (κ × ν) :=
  if (alookup k l).isSome then areplace k v l else l ++ [(k, v)]

/-- Python dict deletion `del d[k]`. -/
def aremove {κ ν : Type} [DecidableEq κ] (k : κ) (l : List (κ × ν)) :
    List (κ × ν) :=
  l.filter fun p => p.1 ≠ k

theorem alookup_areplace_self {κ ν : Type} [DecidableEq κ] (k : κ) (v : ν)
    (l : List (κ × ν)) (r : ν) (h : alookup k l = some r) :
    alookup k (areplace k v l) = some v := by
  induction l with
  | nil => simp [alookup] at h
  | cons p rest ih =>
    obtain ⟨a, b⟩ := p
    by_cases hk : a = k
    · simp [alookup, areplace, hk]
    · simp only [alookup, hk, if_false] at h
      simp [alookup, areplace, hk, ih h]

theorem alookup_areplace_other {κ ν : Type} [DecidableEq κ] (k k2 : κ) (v : ν)
    (l : List (κ × ν)) (hne : k2 ≠ k) :
    alookup k2 (areplace k v l) = alookup k2 l := by
  induction l with
  | nil => simp [areplace]
  | cons p rest ih =>
    obtain ⟨a, b⟩ := p
    by_cases hk : a = k
    · subst hk
      simp [areplace, alookup, Ne.symm hne, hne, ih]
    · by_cases hk2 : a = k2 <;> simp [areplace, alookup, hk, hk2, hne, ih]

theorem mem_areplace {κ ν : Type} [DecidableEq κ] (k : κ) (v : ν)
    (l : List (κ × ν)) (p : κ × ν) (h : p ∈ areplace k v l) :
    p ∈ l ∨ p = (k, v) := by
  induction l with
  | nil => simp [areplace] at h
  | cons q rest ih =>
    obtain ⟨a, b⟩ := q
    by_cases hk : a = k
    · simp only [areplace, hk, if_true, List.mem_cons] at h
      rcases h with h | h
      · exact Or.inr h
      · rcases ih h with h2 | h2
        · exact Or.inl (List.mem_cons_of_mem _ h2)
        · exact Or.inr h2
    · simp only [areplace, hk, if_false, List.mem_cons] at h
      rcases h with h | h
      · exact Or.inl (h ▸ List.mem_cons_self _ _)
      · rcases ih h with h2 | h2
        · exact Or.inl (List.mem_cons_of_mem _ h2)
        · exact Or.inr h2

theorem mem_ainsert {κ ν : Type} [DecidableEq κ] (k : κ) (v : ν)
    (l : List (κ × ν)) (p : κ × ν) (h : p ∈ ainsert k v l) :
    p ∈ l ∨ p = (k, v) := by
  unfold ainsert at h
  by_cases hc : (alookup k l).isSome
  · exact mem_areplace k v l p (by simpa [hc] using h)
  · rw [if_neg hc] at h
    rcases List.mem_append.mp h with h | h
    · exact Or.inl h
    · exact Or.inr (List.mem_singleton.mp h)

/-! ## Account registry (`src/binance_mcp/config.py`, class `ConfigManager`)

An account record as stored in `self._config["accounts"][account_id]`.
Credential fields hold ciphertext at rest.  `updated_at` is absent until the
first update.  `portfolio_margin` and `passphrase` model the forward
compatible keys read elsewhere via `.get(...)` with their Python defaults
(`False` / absent) standing for a missing key. -/

structure AccountRecord where
  api_key : String
  secret : String
  sandbox : Bool
  description : String
  created_at : String
  updated_at : Option String
  portfolio_margin : Bool
  passphrase : Option String
deriving DecidableEq

/-- The registry error kinds raised by `ConfigManager` (`ValueError` in the
source, distinguished by message). -/
inductive ConfigError where
  | DuplicateAccountError (id : String)
  | AccountNotFoundError (id : String)
deriving DecidableEq

/-- Fixed config-file path (`self.config_file`). -/
def configFile : String := "~/.config/binance-mcp/config.json"

/-- File-system side effects issued by `_save_config` and `_get_encryption_key`.
`openWriteTrunc` is `open(path, "w")` followed by writing the whole serialized
table; the contents are modelled by the table value itself. -/
inductive FsOp where
  | openWriteTrunc (path : String) (contents : List (String × AccountRecord))
  | chmod (path : String) (mode : Nat)
  | rename (src dst : String)
deriving DecidableEq

/-- `ConfigManager._save_config`: opens the config file for writing directly
(truncating it), dumps the whole table, then re-applies `0o600` permissions. -/
def saveConfigFs (accounts : List (String × AccountRecord)) : List FsOp :=
  [FsOp.openWriteTrunc configFile accounts, FsOp.chmod configFile 0o600]

instance {ε α : Type} [DecidableEq ε] [DecidableEq α] :
    DecidableEq (Except ε α) := fun x y =>
  match x, y with
  | Except.error a, Except.error b =>
    if h : a = b then isTrue (by rw [h])
    else isFalse (by intro hc; cases hc; exact h rfl)
  | Except.ok a, Except.ok b =>
    if h : a = b then isTrue (by rw [h])
    else isFalse (by intro hc; cases hc; exact h rfl)
  | Except.error _, Except.ok _ => isFalse (by intro hc; cases hc)
  | Except.ok _, Except.error _ => isFalse (by intro hc; cases hc)

/-- Outcome of a mutating registry operation: the resulting table, the raised
error if any, and the file-system trace produced by `_save_config`. -/
structure ConfigOut where
  accounts : List (String × AccountRecord)
  ret : Except ConfigError Unit
  fs : List FsOp
deriving DecidableEq

/-- `ConfigManager.add_account`: duplicate ids fail before any mutation;
otherwise credentials are encrypted, the created timestamp is set, the record
is inserted and the table persisted. -/
def addAccount (enc : String → String) (now : String)
    (accounts : List (String × AccountRecord)) (id api_key secret : String)
    (sandbox : Bool) (description : String) : ConfigOut :=
  if (alookup id accounts).isSome then
    { accounts := accounts
      ret := Except.error (ConfigError.DuplicateAccountError id)
      fs := [] }
  else
    let record : AccountRecord :=
      { api_key := enc api_key
        secret := enc secret
        sandbox := sandbox
        description := description
        created_at := now
        updated_at := none
        portfolio_margin := false
        passphrase := none }
    let accounts2 := ainsert id record accounts
    { accounts := accounts2, ret := Except.ok (), fs := saveConfigFs accounts2 }

/-- `ConfigManager.remove_account`. -/
def removeAccount (accounts : List (String × AccountRecord)) (id : String) :
    ConfigOut :=
  if (alookup id accounts).isSome then
    let accounts2 := aremove id accounts
    { accounts := accounts2, ret := Except.ok (), fs := saveConfigFs accounts2 }
  else
    { accounts := accounts
      ret := Except.error (ConfigError.AccountNotFoundError id)
      fs := [] }

/-- The decryption step of `ConfigManager.get_account`: decrypt the two
credential fields, copy every other field verbatim. -/
def decryptRecord (dec : String → String) (r : AccountRecord) : AccountRecord :=
  { r with api_key := dec r.api_key, secret := dec r.secret }

/-- `ConfigManager.get_account`. -/
def getAccount (dec : String → String)
    (accounts : List (String × AccountRecord)) (id : String) :
    Except ConfigError AccountRecord :=
  match alookup id accounts with
  | none => Except.error (ConfigError.AccountNotFoundError id)
  | some r => Except.ok (decryptRecord dec r)

/-- `ConfigManager.update_account`: partial update of the supplied fields,
re-encrypting supplied secrets, bumping `updated_at`, then persisting. -/
def updateAccount (enc : String → String) (now : String)
    (accounts : List (String × AccountRecord)) (id : String)
    (api_key2 secret2 : Option String) (sandbox2 : Option Bool)
    (description2 : Option String) : ConfigOut :=
  match alookup id accounts with
  | none =>
    { accounts := accounts
      ret := Except.error (ConfigError.AccountNotFoundError id)
      fs := [] }
  | some r =>
    let r1 := match api_key2 with
      | some k => { r with api_key := enc k }
      | none => r
    let r2 := match secret2 with
      | some s2 => { r1 with secret := enc s2 }
      | none => r1
    let r3 := match sandbox2 with
      | some sb => { r2 with sandbox := sb }
      | none => r2
    let r4 := match description2 with
      | some d => { r3 with description := d }
      | none => r3
    let r5 := { r4 with updated_at := some now }
    let accounts2 := ainsert id r5 accounts
    { accounts := accounts2, ret := Except.ok (), fs := saveConfigFs accounts2 }

theorem alookup_append_right {κ ν : Type} [DecidableEq κ] (k : κ)
    (l m : List (κ × ν)) (h : alookup k l = none) :
    alookup k (l ++ m) = alookup k m := by
  induction l with
  | nil => rfl
  | cons p rest ih =>
    obtain ⟨a, b⟩ := p
    by_cases hk : a = k
    · simp [alookup, hk] at h
    · simp only [alookup, hk, if_false] at h
      simpa [alookup, hk] using ih h

theorem alookup_ainsert_self {κ ν : Type} [DecidableEq κ] (k : κ) (v : ν)
    (l : List (κ × ν)) : alookup k (ainsert k v l) = some v := by
  unfold ainsert
  by_cases hc : (alookup k l).isSome
  · obtain ⟨r, hr⟩ := Option.isSome_iff_exists.mp hc
    rw [if_pos hc]
    exact alookup_areplace_self k v l r hr
  · rw [if_neg hc,
      alookup_append_right k l _ (Option.not_isSome_iff_eq_none.mp hc)]
    simp [alookup]

/-- A sample stored record used to instantiate the claim theorems. -/
def sampleRecord : AccountRecord :=
  { api_key := "k0"
    secret := "s0"
    sandbox := false
    description := "d0"
    created_at := "2024-01-01"
    updated_at := none
    portfolio_margin := false
    passphrase := none }

/-- The atomic-persistence discipline asserted by the specification: some
temporary path distinct from the config file is written and then renamed over
the config file. -/
def atomicTempRename (ops : List FsOp) : Prop :=
  ∃ tmp contents, tmp ≠ configFile ∧
    FsOp.openWriteTrunc tmp contents ∈ ops ∧ FsOp.rename tmp configFile ∈ ops

def isRename : FsOp → Bool
  | FsOp.rename _ _ => true
  | _ => false

/-- C5: adding an account whose id is already present always fails with
`DuplicateAccountError`, performs no save, leaves the table unchanged, and the
pre-existing record under that id is unmodified. -/
theorem addAccount_duplicate_unchanged (enc : String → String) (now : String)
    (accounts : List (String × AccountRecord)) (id : String)
    (r : AccountRecord) (api_key secret : String) (sandbox : Bool)
    (description : String) (h : alookup id accounts = some r) :
    addAccount enc now accounts id api_key secret sandbox description =
      { accounts := accounts
        ret := Except.error (ConfigError.DuplicateAccountError id)
        fs := [] }
    ∧ alookup id
        (addAccount enc now accounts id api_key secret sandbox
          description).accounts = some r := by
  have hs : (alookup id accounts).isSome = true := by rw [h]; rfl
  constructor
  · simp [addAccount, hs]
  · simp [addAccount, hs, h]

theorem addAccount_duplicate_unchanged_witness :
    alookup "a1" [("a1", sampleRecord)] = some sampleRecord ∧
    (addAccount (fun s => s) "t1" [("a1", sampleRecord)] "a1" "k" "s" false ""
        = { accounts := [("a1", sampleRecord)]
            ret := Except.error (ConfigError.DuplicateAccountError "a1")
            fs := [] }
      ∧ alookup "a1"
          (addAccount (fun s => s) "t1" [("a1", sampleRecord)] "a1" "k" "s"
            false "").accounts = some sampleRecord) :=
  ⟨rfl,
    addAccount_duplicate_unchanged (fun s => s) "t1" [("a1", sampleRecord)]
      "a1" sampleRecord "k" "s" false "" rfl⟩

/-- C6: a partial update changes exactly the supplied fields and bumps the
updated timestamp (every unsupplied field, `created_at` and the forward
compatible fields are preserved); in particular after a description-only
update the decrypted `api_key` returned by `get_account` is unchanged; and an
update of an absent account fails with `AccountNotFoundError` without touching
the table or the disk. -/
theorem updateAccount_partial_frame :
    (∀ (enc : String → String) (now : String)
       (accounts : List (String × AccountRecord)) (id : String)
       (api_key2 secret2 : Option String) (sandbox2 : Option Bool)
       (description2 : Option String) (r : AccountRecord),
       alookup id accounts = some r →
       ∃ r5 : AccountRecord,
         (updateAccount enc now accounts id api_key2 secret2 sandbox2
             description2).ret = Except.ok () ∧
         alookup id (updateAccount enc now accounts id api_key2 secret2
             sandbox2 description2).accounts = some r5 ∧
         r5.updated_at = some now ∧
         r5.api_key = (match api_key2 with
           | some k => enc k
           | none => r.api_key) ∧
         r5.secret = (match secret2 with
           | some s2 => enc s2
           | none => r.secret) ∧
         r5.sandbox = sandbox2.getD r.sandbox ∧
         r5.description = description2.getD r.description ∧
         r5.created_at = r.created_at ∧
         r5.portfolio_margin = r.portfolio_margin ∧
         r5.passphrase = r.passphrase)
    ∧ (∀ (enc dec : String → String) (now : String)
         (accounts : List (String × AccountRecord)) (id d : String)
         (r : AccountRecord), alookup id accounts = some r →
         Except.map (fun a => a.api_key)
             (getAccount dec (updateAccount enc now accounts id none none none
               (some d)).accounts id)
           = Except.map (fun a => a.api_key) (getAccount dec accounts id))
    ∧ (∀ (enc : String → String) (now : String)
         (accounts : List (String × AccountRecord)) (id : String)
         (api_key2 secret2 : Option String) (sandbox2 : Option Bool)
         (description2 : Option String), alookup id accounts = none →
         updateAccount enc now accounts id api_key2 secret2 sandbox2
             description2 =
           { accounts := accounts
             ret := Except.error (ConfigError.AccountNotFoundError id)
             fs := [] }) := by
  refine ⟨?_, ?_, ?_⟩
  · intro enc now accounts id api_key2 secret2 sandbox2 description2 r h
    cases api_key2 <;> cases secret2 <;> cases sandbox2 <;>
      cases description2 <;>
      (unfold updateAccount
       rw [h]
       exact ⟨_, rfl, alookup_ainsert_self _ _ _,
         rfl, rfl, rfl, rfl, rfl, rfl, rfl, rfl⟩)
  · intro enc dec now accounts id d r h
    simp only [updateAccount, h]
    rw [getAccount, getAccount, h, alookup_ainsert_self]
    rfl
  · intro enc now accounts id api_key2 secret2 sandbox2 description2 h
    simp [updateAccount, h]

theorem updateAccount_partial_frame_witness :
    alookup "a1" [("a1", sampleRecord)] = some sampleRecord ∧
    alookup "zz" ([] : List (String × AccountRecord)) = none ∧
    (∃ r5 : AccountRecord,
      (updateAccount (fun s => s) "t2" [("a1", sampleRecord)] "a1" none none
          none (some "x")).ret = Except.ok () ∧
      alookup "a1" (updateAccount (fun s => s) "t2" [("a1", sampleRecord)]
          "a1" none none none (some "x")).accounts = some r5 ∧
      r5.updated_at = some "t2" ∧
      r5.api_key = (match (none : Option String) with
        | some k => (fun s => s) k
        | none => sampleRecord.api_key) ∧
      r5.secret = (match (none : Option String) with
        | some s2 => (fun s => s) s2
        | none => sampleRecord.secret) ∧
      r5.sandbox = (none : Option Bool).getD sampleRecord.sandbox ∧
      r5.description = (some "x").getD sampleRecord.description ∧
      r5.created_at = sampleRecord.created_at ∧
      r5.portfolio_margin = sampleRecord.portfolio_margin ∧
      r5.passphrase = sampleRecord.passphrase) ∧
    Except.map (fun a => a.api_key)
        (getAccount (fun s => s)
          (updateAccount (fun s => s) "t2" [("a1", sampleRecord)] "a1" none
            none none (some "x")).accounts "a1")
      = Except.map (fun a => a.api_key)
          (getAccount (fun s => s) [("a1", sampleRecord)] "a1") ∧
    updateAccount (fun s => s) "t2" [] "zz" none none none (some "x") =
      { accounts := []
        ret := Except.error (ConfigError.AccountNotFoundError "zz")
        fs := [] } :=
  ⟨rfl, rfl,
    updateAccount_partial_frame.1 (fun s => s) "t2" [("a1", sampleRecord)]
      "a1" none none none (some "x") sampleRecord rfl,
    updateAccount_partial_frame.2.1 (fun s => s) (fun s => s) "t2"
      [("a1", sampleRecord)] "a1" "x" sampleRecord rfl,
    updateAccount_partial_frame.2.2 (fun s => s) "t2" [] "zz" none none none
      (some "x") rfl⟩

/-- C4 counterexample: a successful `add_account` persists by opening the
config file directly and rewriting it, issuing no rename at all, so the
write-temp-file-then-rename discipline claimed by the specification is absent. -/
theorem saveConfig_not_atomic_counterexample :
    (addAccount (fun s => s) "t1" [] "a1" "k" "s" false "").ret =
      Except.ok () ∧
    (addAccount (fun s => s) "t1" [] "a1" "k" "s" false "").fs.any isRename =
      false ∧
    ¬ atomicTempRename (addAccount (fun s => s) "t1" [] "a1" "k" "s" false
      "").fs := by
  refine ⟨rfl, rfl, ?_⟩
  rintro ⟨tmp, contents, hne, hw, hr⟩
  simp [addAccount, ainsert, alookup, saveConfigFs] at hr

/-- C4 amended: every mutating registry operation that succeeds rewrites the
whole table by opening the config file directly (truncating write of the full
post-update table to the final path, no temporary file and no rename) and
then re-applies owner-only `0o600` permissions; a failed operation writes
nothing. -/
theorem mutatingOps_direct_rewrite_chmod :
    (∀ (enc : String → String) (now : String)
       (accounts : List (String × AccountRecord)) (id api_key secret : String)
       (sandbox : Bool) (description : String),
       (addAccount enc now accounts id api_key secret sandbox
           description).ret = Except.ok () →
       (addAccount enc now accounts id api_key secret sandbox description).fs
         = [FsOp.openWriteTrunc configFile
              (addAccount enc now accounts id api_key secret sandbox
                description).accounts,
            FsOp.chmod configFile 0o600] ∧
       (addAccount enc now accounts id api_key secret sandbox
           description).fs.any isRename = false)
    ∧ (∀ (accounts : List (String × AccountRecord)) (id : String),
        (removeAccount accounts id).ret = Except.ok () →
        (removeAccount accounts id).fs
          = [FsOp.openWriteTrunc configFile (removeAccount accounts
              id).accounts,
             FsOp.chmod configFile 0o600] ∧
        (removeAccount accounts id).fs.any isRename = false)
    ∧ (∀ (enc : String → String) (now : String)
         (accounts : List (String × AccountRecord)) (id : String)
         (api_key2 secret2 : Option String) (sandbox2 : Option Bool)
         (description2 : Option String),
         (updateAccount enc now accounts id api_key2 secret2 sandbox2
             description2).ret = Except.ok () →
         (updateAccount enc now accounts id api_key2 secret2 sandbox2
             description2).fs
           = [FsOp.openWriteTrunc configFile
                (updateAccount enc now accounts id api_key2 secret2 sandbox2
                  description2).accounts,
              FsOp.chmod configFile 0o600] ∧
         (updateAccount enc now accounts id api_key2 secret2 sandbox2
             description2).fs.any isRename = false)
    ∧ (∀ (enc : String → String) (now : String)
         (accounts : List (String × AccountRecord))
         (id api_key secret : String) (sandbox : Bool)
         (description : String) (err : ConfigError),
         (addAccount enc now accounts id api_key secret sandbox
             description).ret = Except.error err →
         (addAccount enc now accounts id api_key secret sandbox
             description).fs = [])
    ∧ (∀ (accounts : List (String × AccountRecord)) (id : String)
         (err : ConfigError),
         (removeAccount accounts id).ret = Except.error err →
         (removeAccount accounts id).fs = [])
    ∧ (∀ (enc : String → String) (now : String)
         (accounts : List (String × AccountRecord)) (id : String)
         (api_key2 secret2 : Option String) (sandbox2 : Option Bool)
         (description2 : Option String) (err : ConfigError),
         (updateAccount enc now accounts id api_key2 secret2 sandbox2
             description2).ret = Except.error err →
         (updateAccount enc now accounts id api_key2 secret2 sandbox2
             description2).fs = []) := by
  refine ⟨?_, ?_, ?_, ?_, ?_, ?_⟩
  · intro enc now accounts id api_key secret sandbox description hok
    by_cases hc : (alookup id accounts).isSome
    · simp [addAccount, hc] at hok
    · simp [addAccount, hc, saveConfigFs, isRename]
  · intro accounts id hok
    by_cases hc : (alookup id accounts).isSome
    · simp [removeAccount, hc, saveConfigFs, isRename]
    · simp [removeAccount, hc] at hok
  · intro enc now accounts id api_key2 secret2 sandbox2 description2 hok
    cases h : alookup id accounts with
    | none => simp [updateAccount, h] at hok
    | some r => simp [updateAccount, h, saveConfigFs, isRename]
  · intro enc now accounts id api_key secret sandbox description err herr
    by_cases hc : (alookup id accounts).isSome
    · simp [addAccount, hc]
    · simp [addAccount, hc] at herr
  · intro accounts id err herr
    by_cases hc : (alookup id accounts).isSome
    · simp [removeAccount, hc] at herr
    · simp [removeAccount, hc]
  · intro enc now accounts id api_key2 secret2 sandbox2 description2 err herr
    cases h : alookup id accounts with
    | none => simp [updateAccount, h]
    | some r => simp [updateAccount, h] at herr

theorem mutatingOps_direct_rewrite_chmod_witness :
    (addAccount (fun s => s) "t1" [] "a1" "k" "s" false "").ret =
      Except.ok () ∧
    (removeAccount [("a1", sampleRecord)] "a1").ret = Except.ok () ∧
    (updateAccount (fun s => s) "t2" [("a1", sampleRecord)] "a1" none none
        none (some "x")).ret = Except.ok () ∧
    ((addAccount (fun s => s) "t1" [] "a1" "k" "s" false "").fs
       = [FsOp.openWriteTrunc configFile
            (addAccount (fun s => s) "t1" [] "a1" "k" "s" false "").accounts,
          FsOp.chmod configFile 0o600] ∧
     (addAccount (fun s => s) "t1" [] "a1" "k" "s" false "").fs.any isRename
       = false) ∧
    ((removeAccount [("a1", sampleRecord)] "a1").fs
       = [FsOp.openWriteTrunc configFile
            (removeAccount [("a1", sampleRecord)] "a1").accounts,
          FsOp.chmod configFile 0o600] ∧
     (removeAccount [("a1", sampleRecord)] "a1").fs.any isRename = false) ∧
    ((updateAccount (fun s => s) "t2" [("a1", sampleRecord)] "a1" none none
         none (some "x")).fs
       = [FsOp.openWriteTrunc configFile
            (updateAccount (fun s => s) "t2" [("a1", sampleRecord)] "a1" none
              none none (some "x")).accounts,
          FsOp.chmod configFile 0o600] ∧
     (updateAccount (fun s => s) "t2" [("a1", sampleRecord)] "a1" none none
         none (some "x")).fs.any isRename = false) ∧
    (addAccount (fun s => s) "t1" [("a1", sampleRecord)] "a1" "k" "s" false
        "").ret = Except.error (ConfigError.DuplicateAccountError "a1") ∧
    (removeAccount ([] : List (String × AccountRecord)) "zz").ret =
      Except.error (ConfigError.AccountNotFoundError "zz") ∧
    (updateAccount (fun s => s) "t2" [] "zz" none none none
        (some "x")).ret = Except.error (ConfigError.AccountNotFoundError
        "zz") ∧
    (addAccount (fun s => s) "t1" [("a1", sampleRecord)] "a1" "k" "s" false
        "").fs = [] ∧
    (removeAccount ([] : List (String × AccountRecord)) "zz").fs = [] ∧
    (updateAccount (fun s => s) "t2" [] "zz" none none none
        (some "x")).fs = [] :=
  ⟨rfl, rfl, rfl,
    mutatingOps_direct_rewrite_chmod.1 (fun s => s) "t1" [] "a1" "k" "s"
      false "" rfl,
    mutatingOps_direct_rewrite_chmod.2.1 [("a1", sampleRecord)] "a1" rfl,
    mutatingOps_direct_rewrite_chmod.2.2.1 (fun s => s) "t2"
      [("a1", sampleRecord)] "a1" none none none (some "x") rfl,
    rfl, rfl, rfl,
    mutatingOps_direct_rewrite_chmod.2.2.2.1 (fun s => s) "t1"
      [("a1", sampleRecord)] "a1" "k" "s" false ""
      (ConfigError.DuplicateAccountError "a1") rfl,
    mutatingOps_direct_rewrite_chmod.2.2.2.2.1 []
      "zz" (ConfigError.AccountNotFoundError "zz") rfl,
    mutatingOps_direct_rewrite_chmod.2.2.2.2.2 (fun s => s) "t2" [] "zz"
      none none none (some "x")
      (ConfigError.AccountNotFoundError "zz") rfl⟩

/-! ## Client factory (`src/binance_mcp/broker.py`, `BinanceExchangeFactory`)

A ccxt client is modelled by the configuration it carries.  Option keys that a
configuration may omit are `Option`-valued.  The external `ccxt.binance`
constructor is an uninterpreted parameter `ctor`; the factory verifies broker
injection by reading the constructed client's options back, so the read-back
table may differ from the injected one. -/

structure ExchangeOptions where
  defaultType : Option String
  broker : Option (List (String × String))
  portfolioMargin : Option Bool
deriving DecidableEq

structure Exchange where
  apiKey : String
  secret : String
  sandbox : Bool
  enableRateLimit : Bool
  password : Option String
  options : ExchangeOptions
deriving DecidableEq

/-- The hard-coded `BROKER_IDS` partner-code table. -/
def BROKER_IDS : List (String × String) :=
  [("spot", "C96E9MGA"), ("margin", "C96E9MGA"), ("future", "eFC56vBf"),
   ("delivery", "eFC56vBf"), ("swap", "eFC56vBf"), ("option", "eFC56vBf"),
   ("inverse", "eFC56vBf")]

/-- The `exchange_config` dict built by `create_exchange` before calling the
external constructor. -/
def buildExchangeConfig (acct : AccountRecord) : Exchange :=
  { apiKey := acct.api_key
    secret := acct.secret
    sandbox := acct.sandbox
    enableRateLimit := true
    password := acct.passphrase
    options :=
      { defaultType := some "spot"
        broker := some BROKER_IDS
        portfolioMargin := some acct.portfolio_margin } }

inductive FactoryErr where
  | missingField (f : String)
  | constructionError (msg : String)
deriving DecidableEq

/-- `_verify_broker_injection`: raises only when the options carry no broker
table at all; otherwise it returns, producing one logged warning per segment
whose read-back code differs from `BROKER_IDS` (modelled as the returned
list). -/
def verifyBrokerInjection (ex : Exchange) : Except String (List String) :=
  match ex.options.broker with
  | none => Except.error "Broker ID注入失败: options中未找到broker配置"
  | some injected =>
    Except.ok (BROKER_IDS.filterMap fun kv =>
      if alookup kv.1 injected = some kv.2 then none else some kv.1)

/-- The warning list produced when the read-back broker table is `b`. -/
def mismatchedSegments (b : List (String × String)) : List String :=
  BROKER_IDS.filterMap fun kv =>
    if alookup kv.1 b = some kv.2 then none else some kv.1

/-- `BinanceExchangeFactory.create_exchange`: reject empty credentials, build
the config, call the external constructor, then best-effort-verify broker
injection (an exception inside the `try` block is wrapped into
`ClientConstructionError`). -/
def createExchange (ctor : Exchange → Exchange) (acct : AccountRecord) :
    Except FactoryErr Exchange :=
  if acct.api_key = "" then Except.error (FactoryErr.missingField "api_key")
  else if acct.secret = "" then Except.error (FactoryErr.missingField "secret")
  else
    let ex := ctor (buildExchangeConfig acct)
    match verifyBrokerInjection ex with
    | Except.error m => Except.error (FactoryErr.constructionError m)
    | Except.ok _ => Except.ok ex

/-- C9: with non-empty credentials, whenever the constructed client's
read-back options carry a broker table (whatever its contents), construction
returns the handle: per-segment partner-code mismatches produce exactly one
warning per mismatched segment and never fail construction. -/
theorem createExchange_mismatch_only_warns (ctor : Exchange → Exchange)
    (acct : AccountRecord) (b : List (String × String))
    (hk : acct.api_key ≠ "") (hs : acct.secret ≠ "")
    (hb : (ctor (buildExchangeConfig acct)).options.broker = some b) :
    createExchange ctor acct = Except.ok (ctor (buildExchangeConfig acct)) ∧
    verifyBrokerInjection (ctor (buildExchangeConfig acct)) =
      Except.ok (mismatchedSegments b) ∧
    (∀ seg expected, (seg, expected) ∈ BROKER_IDS →
      alookup seg b ≠ some expected → seg ∈ mismatchedSegments b) ∧
    (∀ seg, seg ∈ mismatchedSegments b →
      ∃ expected, (seg, expected) ∈ BROKER_IDS ∧
        alookup seg b ≠ some expected) := by
  have hv : verifyBrokerInjection (ctor (buildExchangeConfig acct)) =
      Except.ok (mismatchedSegments b) := by
    unfold verifyBrokerInjection
    rw [hb]
    rfl
  refine ⟨?_, hv, ?_, ?_⟩
  · unfold createExchange
    rw [if_neg hk, if_neg hs]
    simp only [hv]
  · intro seg expected hmem hne
    refine List.mem_filterMap.mpr ⟨(seg, expected), hmem, ?_⟩
    simp [hne]
  · intro seg hseg
    rcases List.mem_filterMap.mp hseg with ⟨kv, hmem, hf⟩
    obtain ⟨k1, k2⟩ := kv
    by_cases hc : alookup k1 b = some k2
    · simp [hc] at hf
    · simp only [hc, if_false, Option.some.injEq] at hf
      subst hf
      exact ⟨k2, hmem, hc⟩

/-- A constructor whose produced client carries a corrupted broker table,
used to exercise the mismatch-only-warns path. -/
def wrongBrokerCtor : Exchange → Exchange := fun e =>
  { e with options := { e.options with broker := some [("spot", "WRONG")] } }

theorem createExchange_mismatch_only_warns_witness :
    sampleRecord.api_key ≠ "" ∧ sampleRecord.secret ≠ "" ∧
    (wrongBrokerCtor (buildExchangeConfig sampleRecord)).options.broker =
      some [("spot", "WRONG")] ∧
    (createExchange wrongBrokerCtor sampleRecord =
        Except.ok (wrongBrokerCtor (buildExchangeConfig sampleRecord)) ∧
      verifyBrokerInjection (wrongBrokerCtor
          (buildExchangeConfig sampleRecord)) =
        Except.ok (mismatchedSegments [("spot", "WRONG")]) ∧
      (∀ seg expected, (seg, expected) ∈ BROKER_IDS →
        alookup seg [("spot", "WRONG")] ≠ some expected →
        seg ∈ mismatchedSegments [("spot", "WRONG")]) ∧
      (∀ seg, seg ∈ mismatchedSegments [("spot", "WRONG")] →
        ∃ expected, (seg, expected) ∈ BROKER_IDS ∧
          alookup seg [("spot", "WRONG")] ≠ some expected)) :=
  ⟨by decide, by decide, rfl,
    createExchange_mismatch_only_warns wrongBrokerCtor sampleRecord
      [("spot", "WRONG")] (by decide) (by decide) rfl⟩

/-! ## Routing dispatcher (`src/binance_mcp/tools.py`, `BinanceMCPTools`)

The per-account handle cache `self._exchange_cache` is an association list
from account id to the (configuration of the) live client.  In-place mutation
of a shared handle (`exchange.options[...] = ...`) is modelled by replacing
the cache entry with the mutated record.  Remote calls are recorded as an
event trace.  Python `str.upper()` and `str.replace("/", "")` are modelled
character-wise. -/

/-- Python `s.upper()`. -/
def strUpper (s : String) : String := ⟨s.data.map Char.toUpper⟩

/-- Python `symbol.replace("/", "")`: drops every separator character. -/
def stripSlash (s : String) : String := ⟨s.data.filter (fun ch => ch ≠ '/')⟩

abbrev Cache := List (String × Exchange)

/-- `BinanceMCPTools._create_spot_only_exchange`: a fresh client configured
for spot only — spot broker id, `defaultType` spot, and crucially no
`portfolioMargin` key. -/
def createSpotOnlyExchange (acct : AccountRecord) : Exchange :=
  { apiKey := acct.api_key
    secret := acct.secret
    sandbox := acct.sandbox
    enableRateLimit := true
    password := none
    options :=
      { defaultType := some "spot"
        broker := some [("spot", "C96E9MGA")]
        portfolioMargin := none } }

/-- `BinanceMCPTools._get_exchange`: memoised per-account construction via
the factory (the external constructor is modelled as storing its
configuration). -/
def getExchange (acct : AccountRecord) (id : String) (cache : Cache) :
    Except FactoryErr (Exchange × Cache) :=
  match alookup id cache with
  | some ex => Except.ok (ex, cache)
  | none =>
    match createExchange (fun e => e) acct with
    | Except.error e => Except.error e
    | Except.ok ex => Except.ok (ex, cache ++ [(id, ex)])

/-- The explicit parameter set built for the unified (Portfolio Margin) order
endpoint `papiPostUmOrder`. -/
structure OrderParams where
  symbol : String
  side : String
  type : String
  quantity : Rat
  positionSide : String
  price : Option Rat
deriving DecidableEq

/-- Remote calls issued by the dispatcher's balance/order tools. -/
inductive Ev where
  | constructSpotOnly (ex : Exchange)
  | fetchBalance (ex : Exchange)
  | papiGetBalance (opts : ExchangeOptions)
  | createOrder (ex : Exchange) (symbol order_type side : String)
      (amount : Rat) (price : Option Rat)
  | papiPostUmOrder (p : OrderParams)
deriving DecidableEq

/-- One per-asset record of the unified-balance (`papi_get_balance`) payload;
`none` models a missing field. -/
structure PapiAsset where
  asset : Option String
  crossMarginFree : Option Rat
  umWalletBalance : Option Rat
  cmWalletBalance : Option Rat
  totalWalletBalance : Option Rat
deriving DecidableEq

/-- One normalized per-currency entry of the converted balance dict. -/
structure BalanceEntry where
  free : Rat
  used : Rat
  total : Rat
  crossMarginFree : Rat
  umWalletBalance : Rat
  cmWalletBalance : Rat
deriving DecidableEq

/-- The normalization of one source record inside `get_balance` (unified
derivatives branch); `float(asset.get(field, 0))` reads a missing field as 0. -/
def normalizeEntry (a : PapiAsset) : BalanceEntry :=
  let cross_margin_free := a.crossMarginFree.getD 0
  let um_wallet_balance := a.umWalletBalance.getD 0
  let cm_wallet_balance := a.cmWalletBalance.getD 0
  let total_available := cross_margin_free + um_wallet_balance +
    cm_wallet_balance
  let total_wallet_balance := a.totalWalletBalance.getD 0
  { free := total_available
    used := max 0 (total_wallet_balance - total_available)
    total := total_wallet_balance
    crossMarginFree := cross_margin_free
    umWalletBalance := um_wallet_balance
    cmWalletBalance := cm_wallet_balance }

/-- The loop body of the conversion: skip records with a falsy `asset` field,
otherwise `result[currency] = entry`. -/
def normStep (result : List (String × BalanceEntry)) (a : PapiAsset) :
    List (String × BalanceEntry) :=
  match a.asset with
  | none => result
  | some currency =>
    if currency = "" then result
    else ainsert currency (normalizeEntry a) result

/-- The full Portfolio-Margin-to-ccxt balance conversion of `get_balance`. -/
def normalizePapiBalance (balance_data : List PapiAsset) :
    List (String × BalanceEntry) :=
  balance_data.foldl normStep []

inductive BalanceResult where
  | normalized (entries : List (String × BalanceEntry))
  | fetched (ex : Exchange)
deriving DecidableEq

/-- `BinanceMCPTools.get_balance`.  `papiData` is the list payload returned by
the remote unified-balance endpoint when that call is made. -/
def getBalance (acct : AccountRecord) (id : String) (account_type : String)
    (papiData : List PapiAsset) (cache : Cache) :
    Except FactoryErr (BalanceResult × Cache × List Ev) :=
  match getExchange acct id cache with
  | Except.error e => Except.error e
  | Except.ok (ex, cache1) =>
    if acct.portfolio_margin then
      if account_type = "future" ∨ account_type = "option" ∨
          account_type = "margin" then
        Except.ok (BalanceResult.normalized (normalizePapiBalance papiData),
          cache1, [Ev.papiGetBalance ex.options])
      else
        let spot_exchange := createSpotOnlyExchange acct
        Except.ok (BalanceResult.fetched spot_exchange, cache1,
          [Ev.constructSpotOnly spot_exchange,
           Ev.fetchBalance spot_exchange])
    else
      let dt := if account_type = "future" then "future"
        else if account_type = "option" then "option" else "spot"
      let ex2 := { ex with options :=
        { ex.options with defaultType := some dt } }
      Except.ok (BalanceResult.fetched ex2, areplace id ex2 cache1,
        [Ev.fetchBalance ex2])

/-- The explicit Portfolio-Margin order parameter set shared by
`create_futures_order` and `create_contract_order`. -/
def pmOrderParams (symbol side order_type : String) (amount : Rat)
    (price : Option Rat) : OrderParams :=
  { symbol := stripSlash symbol
    side := strUpper side
    type := strUpper order_type
    quantity := amount
    positionSide := if strUpper side = "BUY" then "LONG" else "SHORT"
    price := if order_type ≠ "market" ∧ price.isSome then price else none }

/-- `BinanceMCPTools.create_spot_order`: always force the shared handle's
segment to spot and delegate to the generic `create_order`. -/
def createSpotOrder (acct : AccountRecord) (id symbol side : String)
    (amount : Rat) (order_type : String) (price : Option Rat)
    (cache : Cache) : Except FactoryErr (Cache × List Ev) :=
  match getExchange acct id cache with
  | Except.error e => Except.error e
  | Except.ok (ex, cache1) =>
    let ex2 := { ex with options :=
      { ex.options with defaultType := some "spot" } }
    Except.ok (areplace id ex2 cache1,
      [Ev.createOrder ex2 symbol order_type side amount price])

/-- `BinanceMCPTools.create_futures_order`. -/
def createFuturesOrder (acct : AccountRecord) (id symbol side : String)
    (amount : Rat) (order_type : String) (price : Option Rat)
    (cache : Cache) : Except FactoryErr (Cache × List Ev) :=
  match getExchange acct id cache with
  | Except.error e => Except.error e
  | Except.ok (ex, cache1) =>
    if acct.portfolio_margin then
      Except.ok (cache1,
        [Ev.papiPostUmOrder (pmOrderParams symbol side order_type amount
          price)])
    else
      let ex2 := { ex with options :=
        { ex.options with defaultType := some "future" } }
      Except.ok (areplace id ex2 cache1,
        [Ev.createOrder ex2 symbol order_type side amount price])

/-- `BinanceMCPTools.create_contract_order`. -/
def createContractOrder (acct : AccountRecord) (id symbol side : String)
    (amount : Rat) (order_type : String) (price : Option Rat)
    (contract_type : String) (cache : Cache) :
    Except FactoryErr (Cache × List Ev) :=
  match getExchange acct id cache with
  | Except.error e => Except.error e
  | Except.ok (ex, cache1) =>
    if acct.portfolio_margin then
      Except.ok (cache1,
        [Ev.papiPostUmOrder (pmOrderParams symbol side order_type amount
          price)])
    else
      let dt := if contract_type = "delivery" then "delivery" else "future"
      let ex2 := { ex with options :=
        { ex.options with defaultType := some dt } }
      Except.ok (areplace id ex2 cache1,
        [Ev.createOrder ex2 symbol order_type side amount price])

/-! ### Fund transfers (`transfer_funds`) -/

/-- Remote calls and other side effects issued by `transfer_funds`. -/
inductive TEv where
  | constructTransferExchange (ex : Exchange)
  | loadMarkets
  | sapiTransfer (ttype asset : String) (amount : Rat)
  | sleepSec (n : Nat)
  | ccxtTransfer (currency : String) (amount : Rat) (fromAcc toAcc : String)
deriving DecidableEq

/-- An exception escaping the raw tool body: a ccxt `BaseError` or a Python
`ValueError`. -/
inductive RawErr where
  | ccxt (msg : String)
  | valueError (msg : String)
deriving DecidableEq

/-- What the `handle_ccxt_error` decorator lets the caller see: ccxt errors
re-raised unchanged, any other exception wrapped into a `RuntimeError`. -/
inductive RaisedErr where
  | ccxt (msg : String)
  | runtimeError (msg : String)
deriving DecidableEq

inductive TransferResult where
  | spotToFuture (tranId : Nat)
  | futureToSpot (step1 step2 : Nat)
  | directTransfer (tranId : Nat)
  | genericTransfer
deriving DecidableEq

/-- The dedicated transfer client built at the top of `transfer_funds`
(spot/future/option broker ids, no `portfolioMargin` key). -/
def transferExchangeFor (acct : AccountRecord) : Exchange :=
  { apiKey := acct.api_key
    secret := acct.secret
    sandbox := acct.sandbox
    enableRateLimit := true
    password := none
    options :=
      { defaultType := none
        broker := some [("spot", "C96E9MGA"), ("future", "eFC56vBf"),
          ("option", "eFC56vBf")]
        portfolioMargin := none } }

/-- The fixed segment-pair to transfer-type lookup table of the
unified-mode fallback branch. -/
def transferTypeMap : List ((String × String) × String) :=
  [(("spot", "margin"), "MAIN_MARGIN"), (("margin", "spot"), "MARGIN_MAIN"),
   (("margin", "future"), "MARGIN_UMFUTURE"),
   (("future", "margin"), "UMFUTURE_MARGIN")]

/-- `BinanceMCPTools.transfer_funds` before the decorator.  `beh` gives the
remote outcome of `sapi_post_asset_transfer` per transfer type (`ok tranId`
or a ccxt error). -/
def transferFundsRaw (acct : AccountRecord)
    (beh : String → Except String Nat) (currency : String) (amount : Rat)
    (from_account to_account : String) :
    List TEv × Except RawErr TransferResult :=
  let tex := transferExchangeFor acct
  if acct.portfolio_margin then
    let tr0 := [TEv.constructTransferExchange tex, TEv.loadMarkets]
    if from_account = "spot" ∧ to_account = "future" then
      match beh "MAIN_MARGIN" with
      | Except.error e =>
        (tr0 ++ [TEv.sapiTransfer "MAIN_MARGIN" currency amount],
         Except.error (RawErr.ccxt e))
      | Except.ok t1 =>
        (tr0 ++ [TEv.sapiTransfer "MAIN_MARGIN" currency amount,
          TEv.sleepSec 1],
         Except.ok (TransferResult.spotToFuture t1))
    else if from_account = "future" ∧ to_account = "spot" then
      match beh "UMFUTURE_MARGIN" with
      | Except.error e =>
        (tr0 ++ [TEv.sapiTransfer "UMFUTURE_MARGIN" currency amount],
         Except.error (RawErr.ccxt e))
      | Except.ok t1 =>
        match beh "MARGIN_MAIN" with
        | Except.error e =>
          (tr0 ++ [TEv.sapiTransfer "UMFUTURE_MARGIN" currency amount,
            TEv.sleepSec 1, TEv.sapiTransfer "MARGIN_MAIN" currency amount],
           Except.error (RawErr.ccxt e))
        | Except.ok t2 =>
          (tr0 ++ [TEv.sapiTransfer "UMFUTURE_MARGIN" currency amount,
            TEv.sleepSec 1, TEv.sapiTransfer "MARGIN_MAIN" currency amount],
           Except.ok (TransferResult.futureToSpot t1 t2))
    else
      match alookup (from_account, to_account) transferTypeMap with
      | none =>
        (tr0, Except.error (RawErr.valueError
          ("统一账户模式下不支持的转账类型: " ++ from_account ++ " -> " ++
            to_account)))
      | some tt =>
        match beh tt with
        | Except.error e =>
          (tr0 ++ [TEv.sapiTransfer tt currency amount],
           Except.error (RawErr.ccxt e))
        | Except.ok t =>
          (tr0 ++ [TEv.sapiTransfer tt currency amount],
           Except.ok (TransferResult.directTransfer t))
  else
    ([TEv.constructTransferExchange tex,
      TEv.ccxtTransfer currency amount from_account to_account],
     Except.ok TransferResult.genericTransfer)

/-- The `handle_ccxt_error` decorator: ccxt errors are logged and re-raised
unchanged, any other exception becomes `RuntimeError("工具执行失败: ...")`. -/
def handleCcxtError {α : Type} (r : Except RawErr α) : Except RaisedErr α :=
  match r with
  | Except.ok a => Except.ok a
  | Except.error (RawErr.ccxt m) => Except.error (RaisedErr.ccxt m)
  | Except.error (RawErr.valueError m) =>
    Except.error (RaisedErr.runtimeError ("工具执行失败: " ++ m))

/-- The decorated `transfer_funds` tool. -/
def transferFunds (acct : AccountRecord) (beh : String → Except String Nat)
    (currency : String) (amount : Rat) (from_account to_account : String) :
    List TEv × Except RaisedErr TransferResult :=
  let r := transferFundsRaw acct beh currency amount from_account to_account
  (r.1, handleCcxtError r.2)

/-- The remote transfer calls (by transfer type, in order) within a trace. -/
def sapiCalls (tr : List TEv) : List String :=
  tr.filterMap fun e => match e with
    | TEv.sapiTransfer tt _ _ => some tt
    | _ => none

/-- A unified (portfolio-margin) account. -/
def pmAccount : AccountRecord := { sampleRecord with portfolio_margin := true }

/-- Remote behaviour: every transfer succeeds with tranId 1. -/
def behAllOk : String → Except String Nat := fun _ => Except.ok 1

/-- Remote behaviour: the margin-to-spot leg fails, everything else succeeds
with tranId 111. -/
def behStep2Boom111 : String → Except String Nat := fun tt =>
  if tt = "MARGIN_MAIN" then Except.error "boom" else Except.ok 111

/-- Same failing behaviour but with a different first-leg tranId. -/
def behStep2Boom222 : String → Except String Nat := fun tt =>
  if tt = "MARGIN_MAIN" then Except.error "boom" else Except.ok 222

/-- Remote behaviour: the future-to-margin leg fails immediately. -/
def behStep1Down : String → Except String Nat := fun tt =>
  if tt = "UMFUTURE_MARGIN" then Except.error "down" else Except.ok 1

/-- C2: in unified mode, a future-to-spot transfer issues exactly two remote
transfer calls in order — `UMFUTURE_MARGIN` then `MARGIN_MAIN` — (given the
first leg comes back, its call and the second are both issued), and a
spot-to-future transfer issues exactly one remote transfer call,
`MAIN_MARGIN`, whatever the remote outcome. -/
theorem transferFunds_unified_routing :
    (∀ (acct : AccountRecord) (beh : String → Except String Nat)
       (currency : String) (amount : Rat) (t1 : Nat),
       acct.portfolio_margin = true →
       beh "UMFUTURE_MARGIN" = Except.ok t1 →
       sapiCalls (transferFunds acct beh currency amount "future" "spot").1 =
         ["UMFUTURE_MARGIN", "MARGIN_MAIN"])
    ∧ (∀ (acct : AccountRecord) (beh : String → Except String Nat)
         (currency : String) (amount : Rat),
       acct.portfolio_margin = true →
       sapiCalls (transferFunds acct beh currency amount "spot" "future").1 =
         ["MAIN_MARGIN"]) := by
  constructor
  · intro acct beh currency amount t1 hpm hb
    cases hbm : beh "MARGIN_MAIN" <;>
      simp [transferFunds, transferFundsRaw, hpm, hb, hbm, sapiCalls]
  · intro acct beh currency amount hpm
    cases hbm : beh "MAIN_MARGIN" <;>
      simp [transferFunds, transferFundsRaw, hpm, hbm, sapiCalls]

theorem transferFunds_unified_routing_witness :
    pmAccount.portfolio_margin = true ∧
    behAllOk "UMFUTURE_MARGIN" = Except.ok 1 ∧
    sapiCalls (transferFunds pmAccount behAllOk "USDT" 5 "future" "spot").1 =
      ["UMFUTURE_MARGIN", "MARGIN_MAIN"] ∧
    sapiCalls (transferFunds pmAccount behAllOk "USDT" 5 "spot" "future").1 =
      ["MAIN_MARGIN"] :=
  ⟨rfl, rfl,
    transferFunds_unified_routing.1 pmAccount behAllOk "USDT" 5 1 rfl rfl,
    transferFunds_unified_routing.2 pmAccount behAllOk "USDT" 5 rfl⟩

/-- C3 counterexample: with the first leg succeeding and the second failing,
the raised error is exactly the second leg's original ccxt error; it is
identical for two different first-leg outcomes (tranId 111 vs 222), so the
error reports nothing about the partial state — the claim that it explicitly
reports which step succeeded is false. -/
theorem transferFunds_secondLeg_error_counterexample :
    (transferFunds pmAccount behStep2Boom111 "USDT" 5 "future" "spot").2 =
      Except.error (RaisedErr.ccxt "boom") ∧
    (transferFunds pmAccount behStep2Boom222 "USDT" 5 "future" "spot").2 =
      Except.error (RaisedErr.ccxt "boom") ∧
    (transferFunds pmAccount behStep2Boom111 "USDT" 5 "future" "spot").2 =
      (transferFunds pmAccount behStep2Boom222 "USDT" 5 "future" "spot").2 :=
  ⟨rfl, rfl, rfl⟩

/-- C3 amended: in a unified-mode future-to-spot transfer, if the first
remote leg fails the second is never attempted and the original ccxt error
propagates; if the first succeeds and the second fails, both calls appear in
the trace and the second leg's original ccxt error is re-raised unchanged —
the partial state (that the first leg succeeded) is not reported in the
raised error. -/
theorem transferFunds_twoStep_error_propagation :
    (∀ (acct : AccountRecord) (beh : String → Except String Nat)
       (currency : String) (amount : Rat) (e : String),
       acct.portfolio_margin = true →
       beh "UMFUTURE_MARGIN" = Except.error e →
       transferFunds acct beh currency amount "future" "spot" =
         ([TEv.constructTransferExchange (transferExchangeFor acct),
           TEv.loadMarkets,
           TEv.sapiTransfer "UMFUTURE_MARGIN" currency amount],
          Except.error (RaisedErr.ccxt e)))
    ∧ (∀ (acct : AccountRecord) (beh : String → Except String Nat)
         (currency : String) (amount : Rat) (t1 : Nat) (e : String),
       acct.portfolio_margin = true →
       beh "UMFUTURE_MARGIN" = Except.ok t1 →
       beh "MARGIN_MAIN" = Except.error e →
       transferFunds acct beh currency amount "future" "spot" =
         ([TEv.constructTransferExchange (transferExchangeFor acct),
           TEv.loadMarkets,
           TEv.sapiTransfer "UMFUTURE_MARGIN" currency amount,
           TEv.sleepSec 1,
           TEv.sapiTransfer "MARGIN_MAIN" currency amount],
          Except.error (RaisedErr.ccxt e))) := by
  constructor
  · intro acct beh currency amount e hpm hb
    simp [transferFunds, transferFundsRaw, handleCcxtError, hpm, hb]
  · intro acct beh currency amount t1 e hpm hb1 hb2
    simp [transferFunds, transferFundsRaw, handleCcxtError, hpm, hb1, hb2]

theorem transferFunds_twoStep_error_propagation_witness :
    pmAccount.portfolio_margin = true ∧
    behStep1Down "UMFUTURE_MARGIN" = Except.error "down" ∧
    behStep2Boom111 "UMFUTURE_MARGIN" = Except.ok 111 ∧
    behStep2Boom111 "MARGIN_MAIN" = Except.error "boom" ∧
    transferFunds pmAccount behStep1Down "USDT" 5 "future" "spot" =
      ([TEv.constructTransferExchange (transferExchangeFor pmAccount),
        TEv.loadMarkets, TEv.sapiTransfer "UMFUTURE_MARGIN" "USDT" 5],
       Except.error (RaisedErr.ccxt "down")) ∧
    transferFunds pmAccount behStep2Boom111 "USDT" 5 "future" "spot" =
      ([TEv.constructTransferExchange (transferExchangeFor pmAccount),
        TEv.loadMarkets, TEv.sapiTransfer "UMFUTURE_MARGIN" "USDT" 5,
        TEv.sleepSec 1, TEv.sapiTransfer "MARGIN_MAIN" "USDT" 5],
       Except.error (RaisedErr.ccxt "boom")) :=
  ⟨rfl, rfl, rfl, rfl,
    transferFunds_twoStep_error_propagation.1 pmAccount behStep1Down "USDT" 5
      "down" rfl rfl,
    transferFunds_twoStep_error_propagation.2 pmAccount behStep2Boom111
      "USDT" 5 111 "boom" rfl rfl rfl⟩

theorem mem_normStep (acc : List (String × BalanceEntry)) (a : PapiAsset)
    (p : String × BalanceEntry) (h : p ∈ normStep acc a) :
    p ∈ acc ∨ (a.asset = some p.1 ∧ p.2 = normalizeEntry a) := by
  unfold normStep at h
  cases ha : a.asset with
  | none => rw [ha] at h; exact Or.inl h
  | some currency =>
    rw [ha] at h
    have h2 : p ∈ (if currency = "" then acc
        else ainsert currency (normalizeEntry a) acc) := h
    by_cases hc : currency = ""
    · rw [if_pos hc] at h2
      exact Or.inl h2
    · rw [if_neg hc] at h2
      rcases mem_ainsert _ _ _ _ h2 with h3 | h3
      · exact Or.inl h3
      · subst h3
        exact Or.inr ⟨rfl, rfl⟩

theorem mem_normalizePapiBalance_aux (l : List PapiAsset)
    (acc : List (String × BalanceEntry)) (p : String × BalanceEntry)
    (h : p ∈ l.foldl normStep acc) :
    p ∈ acc ∨ ∃ a, a ∈ l ∧ a.asset = some p.1 ∧ p.2 = normalizeEntry a := by
  induction l generalizing acc with
  | nil => exact Or.inl h
  | cons a l ih =>
    rw [List.foldl_cons] at h
    rcases ih (normStep acc a) h with h2 | h2
    · rcases mem_normStep acc a p h2 with h3 | h3
      · exact Or.inl h3
      · exact Or.inr ⟨a, List.mem_cons_self a l, h3.1, h3.2⟩
    · rcases h2 with ⟨a2, ha2, hp⟩
      exact Or.inr ⟨a2, List.mem_cons_of_mem a ha2, hp⟩

/-- The worked payload record from the specification:
`{asset: USDT, crossMarginFree: 10, umWalletBalance: 5, cmWalletBalance: 0,
totalWalletBalance: 20}`. -/
def samplePapiAsset : PapiAsset :=
  { asset := some "USDT"
    crossMarginFree := some 10
    umWalletBalance := some 5
    cmWalletBalance := some 0
    totalWalletBalance := some 20 }

/-- Its expected normalization `{free: 15, used: 5, total: 20}`. -/
def sampleEntry : BalanceEntry :=
  { free := 15
    used := 5
    total := 20
    crossMarginFree := 10
    umWalletBalance := 5
    cmWalletBalance := 0 }

/-- A cached shared handle for the unified sample account. -/
def cachedExchange : Exchange := buildExchangeConfig pmAccount

/-- C1: for a unified account, a balance query for segment future, option or
margin calls the unified-balance endpoint and returns the normalized list;
every returned entry stems from a source record with that asset name and
satisfies `free = crossMarginFree + umWalletBalance + cmWalletBalance`,
`used = max 0 (totalWalletBalance - free)`, `total = totalWalletBalance`
(missing source fields read as 0); and the specification's worked example
normalizes to `{free: 15, used: 5, total: 20}`. -/
theorem getBalance_unified_normalization :
    (∀ (acct : AccountRecord) (id account_type : String)
       (papiData : List PapiAsset) (cache : Cache) (ex : Exchange),
       acct.portfolio_margin = true →
       alookup id cache = some ex →
       (account_type = "future" ∨ account_type = "option" ∨
         account_type = "margin") →
       getBalance acct id account_type papiData cache =
         Except.ok (BalanceResult.normalized (normalizePapiBalance papiData),
           cache, [Ev.papiGetBalance ex.options]))
    ∧ (∀ (l : List PapiAsset) (k : String) (e2 : BalanceEntry),
        (k, e2) ∈ normalizePapiBalance l →
        ∃ a, a ∈ l ∧ a.asset = some k ∧
          e2.free = a.crossMarginFree.getD 0 + a.umWalletBalance.getD 0 +
            a.cmWalletBalance.getD 0 ∧
          e2.used = max 0 (a.totalWalletBalance.getD 0 - e2.free) ∧
          e2.total = a.totalWalletBalance.getD 0)
    ∧ normalizePapiBalance [samplePapiAsset] = [("USDT", sampleEntry)] := by
  refine ⟨?_, ?_, ?_⟩
  · intro acct id account_type papiData cache ex hpm hc hty
    unfold getBalance getExchange
    rw [hc]
    simp only [hpm, if_true]
    rw [if_pos hty]
  · intro l k e2 h
    rcases mem_normalizePapiBalance_aux l [] (k, e2) h with h2 | h2
    · simp at h2
    · rcases h2 with ⟨a, ha, hasset, he⟩
      simp only at he
      refine ⟨a, ha, by simpa using hasset, ?_, ?_, ?_⟩ <;> rw [he] <;> rfl
  · have he : normalizeEntry samplePapiAsset = sampleEntry := by
      unfold normalizeEntry samplePapiAsset sampleEntry
      norm_num [max_def]
    have hstep : normalizePapiBalance [samplePapiAsset] =
        ainsert "USDT" (normalizeEntry samplePapiAsset) [] := rfl
    rw [hstep, he]
    rfl

theorem getBalance_unified_normalization_witness :
    pmAccount.portfolio_margin = true ∧
    alookup "a1" [("a1", cachedExchange)] = some cachedExchange ∧
    ("future" = "future" ∨ "future" = "option" ∨ "future" = "margin") ∧
    getBalance pmAccount "a1" "future" [samplePapiAsset]
        [("a1", cachedExchange)] =
      Except.ok
        (BalanceResult.normalized (normalizePapiBalance [samplePapiAsset]),
         [("a1", cachedExchange)],
         [Ev.papiGetBalance cachedExchange.options]) ∧
    ("USDT", sampleEntry) ∈ normalizePapiBalance [samplePapiAsset] ∧
    (∃ a, a ∈ [samplePapiAsset] ∧ a.asset = some "USDT" ∧
      sampleEntry.free = a.crossMarginFree.getD 0 +
        a.umWalletBalance.getD 0 + a.cmWalletBalance.getD 0 ∧
      sampleEntry.used = max 0 (a.totalWalletBalance.getD 0 -
        sampleEntry.free) ∧
      sampleEntry.total = a.totalWalletBalance.getD 0) := by
  have hmem : ("USDT", sampleEntry) ∈ normalizePapiBalance [samplePapiAsset] := by
    rw [getBalance_unified_normalization.2.2]
    exact List.mem_singleton.mpr rfl
  exact ⟨rfl, rfl, Or.inl rfl,
    getBalance_unified_normalization.1 pmAccount "a1" "future"
      [samplePapiAsset] [("a1", cachedExchange)] cachedExchange rfl rfl
      (Or.inl rfl),
    hmem,
    getBalance_unified_normalization.2.1 [samplePapiAsset] "USDT" sampleEntry
      hmem⟩

/-- C8: for a unified account, a spot balance query builds a separate
spot-only client (configured without the `portfolioMargin` flag) and fetches
the balance from it; the cache is returned unchanged — the fresh client is
not inserted and the shared cached handle for the account is not mutated. -/
theorem getBalance_unified_spot_separateClient :
    ∀ (acct : AccountRecord) (id : String) (papiData : List PapiAsset)
      (cache : Cache) (ex : Exchange),
      acct.portfolio_margin = true →
      alookup id cache = some ex →
      getBalance acct id "spot" papiData cache =
        Except.ok (BalanceResult.fetched (createSpotOnlyExchange acct), cache,
          [Ev.constructSpotOnly (createSpotOnlyExchange acct),
           Ev.fetchBalance (createSpotOnlyExchange acct)]) ∧
      (createSpotOnlyExchange acct).options.portfolioMargin = none := by
  intro acct id papiData cache ex hpm hc
  constructor
  · unfold getBalance getExchange
    rw [hc]
    simp [hpm]
  · rfl

theorem getBalance_unified_spot_separateClient_witness :
    pmAccount.portfolio_margin = true ∧
    alookup "a1" [("a1", cachedExchange)] = some cachedExchange ∧
    (getBalance pmAccount "a1" "spot" [] [("a1", cachedExchange)] =
        Except.ok
          (BalanceResult.fetched (createSpotOnlyExchange pmAccount),
           [("a1", cachedExchange)],
           [Ev.constructSpotOnly (createSpotOnlyExchange pmAccount),
            Ev.fetchBalance (createSpotOnlyExchange pmAccount)]) ∧
      (createSpotOnlyExchange pmAccount).options.portfolioMargin = none) :=
  ⟨rfl, rfl,
    getBalance_unified_spot_separateClient pmAccount "a1" []
      [("a1", cachedExchange)] cachedExchange rfl rfl⟩

/-- C10: `create_spot_order` always works on the shared cached handle —
mutating its active segment to spot and delegating to the generic
`create_order` — for every account (the `portfolio_margin` flag is never
consulted); the trace contains no unified-endpoint call and no spot-only
client construction, and the cache still maps the account id to the (now
spot-segment) shared handle. -/
theorem createSpotOrder_shared_handle :
    ∀ (acct : AccountRecord) (id symbol side : String) (amount : Rat)
      (order_type : String) (price : Option Rat) (cache : Cache)
      (ex : Exchange),
      alookup id cache = some ex →
      createSpotOrder acct id symbol side amount order_type price cache =
        Except.ok
          (areplace id
            { ex with options :=
              { ex.options with defaultType := some "spot" } } cache,
           [Ev.createOrder
             { ex with options :=
               { ex.options with defaultType := some "spot" } }
             symbol order_type side amount price]) ∧
      alookup id
          (areplace id
            { ex with options :=
              { ex.options with defaultType := some "spot" } } cache) =
        some { ex with options :=
          { ex.options with defaultType := some "spot" } } := by
  intro acct id symbol side amount order_type price cache ex hc
  refine ⟨?_, alookup_areplace_self id _ cache ex hc⟩
  unfold createSpotOrder getExchange
  rw [hc]

theorem createSpotOrder_shared_handle_witness :
    alookup "a1" [("a1", cachedExchange)] = some cachedExchange ∧
    (createSpotOrder pmAccount "a1" "BTC/USDT" "buy" 2 "limit" (some 100)
        [("a1", cachedExchange)] =
      Except.ok
        (areplace "a1"
          { cachedExchange with options :=
            { cachedExchange.options with defaultType := some "spot" } }
          [("a1", cachedExchange)],
         [Ev.createOrder
           { cachedExchange with options :=
             { cachedExchange.options with defaultType := some "spot" } }
           "BTC/USDT" "limit" "buy" 2 (some 100)]) ∧
      alookup "a1"
          (areplace "a1"
            { cachedExchange with options :=
              { cachedExchange.options with defaultType := some "spot" } }
            [("a1", cachedExchange)]) =
        some { cachedExchange with options :=
          { cachedExchange.options with defaultType := some "spot" } }) :=
  ⟨rfl,
    createSpotOrder_shared_handle pmAccount "a1" "BTC/USDT" "buy" 2 "limit"
      (some 100) [("a1", cachedExchange)] cachedExchange rfl⟩

/-- C7: for a unified account, both derivatives order tools submit the
explicit Portfolio Margin parameter set through the unified endpoint
`papiPostUmOrder` (not the generic `create_order`): `positionSide` is LONG
exactly when the side is buy and SHORT exactly when it is sell, the symbol
has its separator characters removed, side and type are upper-cased, the
quantity equals the requested amount, and a price is included if and only if
the order type is not market and a price was supplied. -/
theorem createDerivOrder_unified_params :
    ∀ (acct : AccountRecord) (id symbol side : String) (amount : Rat)
      (order_type : String) (price : Option Rat) (contract_type : String)
      (cache : Cache) (ex : Exchange),
      acct.portfolio_margin = true →
      alookup id cache = some ex →
      (strUpper side = "BUY" ∨ strUpper side = "SELL") →
      createFuturesOrder acct id symbol side amount order_type price cache =
        Except.ok (cache, [Ev.papiPostUmOrder
          (pmOrderParams symbol side order_type amount price)]) ∧
      createContractOrder acct id symbol side amount order_type price
          contract_type cache =
        Except.ok (cache, [Ev.papiPostUmOrder
          (pmOrderParams symbol side order_type amount price)]) ∧
      ((pmOrderParams symbol side order_type amount price).positionSide =
          "LONG" ↔ strUpper side = "BUY") ∧
      ((pmOrderParams symbol side order_type amount price).positionSide =
          "SHORT" ↔ strUpper side = "SELL") ∧
      (pmOrderParams symbol side order_type amount price).symbol =
        stripSlash symbol ∧
      (pmOrderParams symbol side order_type amount price).side =
        strUpper side ∧
      (pmOrderParams symbol side order_type amount price).type =
        strUpper order_type ∧
      (pmOrderParams symbol side order_type amount price).quantity = amount ∧
      (∀ pr : Rat,
        (pmOrderParams symbol side order_type amount price).price = some pr ↔
          (order_type ≠ "market" ∧ price = some pr)) := by
  intro acct id symbol side amount order_type price contract_type cache ex
    hpm hc hside
  have h1 : createFuturesOrder acct id symbol side amount order_type price
      cache = Except.ok (cache, [Ev.papiPostUmOrder
        (pmOrderParams symbol side order_type amount price)]) := by
    unfold createFuturesOrder getExchange
    rw [hc]
    simp [hpm]
  have h2 : createContractOrder acct id symbol side amount order_type price
      contract_type cache = Except.ok (cache, [Ev.papiPostUmOrder
        (pmOrderParams symbol side order_type amount price)]) := by
    unfold createContractOrder getExchange
    rw [hc]
    simp [hpm]
  refine ⟨h1, h2, ?_, ?_, rfl, rfl, rfl, rfl, ?_⟩
  · rcases hside with hs | hs <;> simp [pmOrderParams, hs]
  · rcases hside with hs | hs <;> simp [pmOrderParams, hs]
  · intro pr
    by_cases hm : order_type = "market"
    · simp [pmOrderParams, hm]
    · cases hp : price with
      | none => simp [pmOrderParams, hm, hp]
      | some p0 => simp [pmOrderParams, hm, hp]

theorem createDerivOrder_unified_params_witness :
    pmAccount.portfolio_margin = true ∧
    alookup "a1" [("a1", cachedExchange)] = some cachedExchange ∧
    (strUpper "buy" = "BUY" ∨ strUpper "buy" = "SELL") ∧
    (createFuturesOrder pmAccount "a1" "BTC/USDT" "buy" 2 "limit" (some 100)
        [("a1", cachedExchange)] =
      Except.ok ([("a1", cachedExchange)], [Ev.papiPostUmOrder
        (pmOrderParams "BTC/USDT" "buy" "limit" 2 (some 100))]) ∧
      createContractOrder pmAccount "a1" "BTC/USDT" "buy" 2 "limit"
          (some 100) "future" [("a1", cachedExchange)] =
        Except.ok ([("a1", cachedExchange)], [Ev.papiPostUmOrder
          (pmOrderParams "BTC/USDT" "buy" "limit" 2 (some 100))]) ∧
      ((pmOrderParams "BTC/USDT" "buy" "limit" 2 (some 100)).positionSide =
          "LONG" ↔ strUpper "buy" = "BUY") ∧
      ((pmOrderParams "BTC/USDT" "buy" "limit" 2 (some 100)).positionSide =
          "SHORT" ↔ strUpper "buy" = "SELL") ∧
      (pmOrderParams "BTC/USDT" "buy" "limit" 2 (some 100)).symbol =
        stripSlash "BTC/USDT" ∧
      (pmOrderParams "BTC/USDT" "buy" "limit" 2 (some 100)).side =
        strUpper "buy" ∧
      (pmOrderParams "BTC/USDT" "buy" "limit" 2 (some 100)).type =
        strUpper "limit" ∧
      (pmOrderParams "BTC/USDT" "buy" "limit" 2 (some 100)).quantity = 2 ∧
      (∀ pr : Rat,
        (pmOrderParams "BTC/USDT" "buy" "limit" 2 (some 100)).price =
            some pr ↔
          ("limit" ≠ "market" ∧ (some 100 : Option Rat) = some pr))) :=
  ⟨rfl, rfl, Or.inl (by decide),
    createDerivOrder_unified_params pmAccount "a1" "BTC/USDT" "buy" 2 "limit"
      (some 100) "future" [("a1", cachedExchange)] cachedExchange rfl rfl
      (Or.inl (by decide))⟩

end BinanceMcp
